import Mathlib

/-!
# Fission controller: HTTP API surface (`controller/api.go`)

A shallow embedding of `controller/api.go`: the log-database configuration
resolver `getLogDBConfig`, the response writers `respondWithSuccess` and
`respondWithError`, the `HomeHandler`, the constructor `MakeAPI` and the route
table registered by `Serve`.

Conventions of the embedding.

* Go strings are Lean `String`s; byte slices written to a response are `String`s
  as well.
* The process environment is an association list of `NAME=value` entries, the
  first entry of a name being the one `os.Getenv` returns.
* An `http.ResponseWriter` is a record of the header map, the status line and
  headers already committed, the body written so far, and the results the next
  `Write` calls are going to have. Every call made on it, and every call of the
  diagnostic functions, is appended to a trace.
* Library functions (`strings.ToUpper`, `fmt.Sprintf`, `http.Error`, the route
  matching of `gorilla/mux`) are modelled after their documented behaviour, as
  far as `api.go` uses them.
* Declarations of the repository that `api.go` uses but does not contain
  (`logdb.INFLUXDB_URL`, `fission.GetHTTPError`, `ResourceStore`) are parameters.
-/

namespace Fission

/-! ## Strings and formatting -/

/-- Upper-case mapping of one rune, as `unicode.ToUpper`: the ASCII letters
`a`..`z` are shifted to `A`..`Z`, other ASCII runes are unchanged, and runes
outside ASCII are looked up in the table `tbl` of the Unicode library. -/
def unicode.ToUpper (tbl : Char → Char) (r : Char) : Char :=
  if r.toNat ≤ 0x7F then
    if 'a'.toNat ≤ r.toNat ∧ r.toNat ≤ 'z'.toNat then Char.ofNat (r.toNat - ('a'.toNat - 'A'.toNat)) else r
  else tbl r

/-- Upper-casing of a string, as `strings.ToUpper`: every rune is mapped with `unicode.ToUpper`. -/
def strings.ToUpper (tbl : Char → Char) (s : String) : String :=
  String.mk (s.data.map (unicode.ToUpper tbl))

/-- The expansion of a format string: the verbs `%s` and `%v` consume the next
operand (already rendered as text), `%%` is a percent sign, and a verb without
operand is rendered as `%!s(MISSING)` or `%!v(MISSING)`. -/
def fmt.expand : List Char → List String → List Char
  | [], _ => []
  | '%' :: 's' :: rest, a :: args => a.data ++ fmt.expand rest args
  | '%' :: 'v' :: rest, a :: args => a.data ++ fmt.expand rest args
  | '%' :: 's' :: rest, [] => "%!s(MISSING)".data ++ fmt.expand rest []
  | '%' :: 'v' :: rest, [] => "%!v(MISSING)".data ++ fmt.expand rest []
  | '%' :: '%' :: rest, args => '%' :: fmt.expand rest args
  | c :: rest, args => c :: fmt.expand rest args

/-- Formatting as `fmt.Sprintf`, for the verbs `api.go` uses. -/
def fmt.Sprintf (format : String) (args : List String) : String :=
  String.mk (fmt.expand format.data args)

/-! ## Process environment -/

/-- The process environment: `NAME=value` entries. -/
abbrev Environ := List (String × String)

/-- The state of the process as far as `getLogDBConfig` touches it: the
environment, and the names passed to `os.Getenv` so far (oldest first). -/
structure Process where
  environ : Environ
  lookups : List String
  deriving DecidableEq, Repr

/-- The value of a variable in an environment, empty when the variable is not
present. -/
def Environ.value (e : Environ) (key : String) : String :=
  match e.lookup key with
  | some v => v
  | none => ""

/-- Lookup as `os.Getenv`: the value of the variable, empty when it is not
present. The name looked up is appended to the record of lookups. -/
def os.Getenv (p : Process) (key : String) : String × Process :=
  (p.environ.value key, { p with lookups := p.lookups ++ [key] })

/-! ## Log database configuration -/

/-- Connection parameters of a log database. -/
structure logDBConfig where
  httpURL : String
  username : String
  password : String
  deriving DecidableEq, Repr

/-- The resolver `getLogDBConfig`. `INFLUXDB_URL` is the constant
`logdb.INFLUXDB_URL`, `tbl` the Unicode upper-case table. -/
def getLogDBConfig (INFLUXDB_URL : String) (tbl : Char → Char) (p : Process)
    (dbType : String) : logDBConfig × Process :=
  let dbType := strings.ToUpper tbl dbType
  -- retrieve db auth config from the env
  let (url, p) := os.Getenv p (fmt.Sprintf "%s_URL" [dbType])
  -- set up default database url
  let url := if url = "" then INFLUXDB_URL else url
  let (username, p) := os.Getenv p (fmt.Sprintf "%s_USERNAME" [dbType])
  let (password, p) := os.Getenv p (fmt.Sprintf "%s_PASSWORD" [dbType])
  ({ httpURL := url, username := username, password := password }, p)

/-! ## Response writer -/

/-- The header map of a response, as `http.Header`: canonical header names with
their values. -/
abbrev Header := List (String × List String)

/-- Replacement of the values of a header by one value, as `Header.Set`. -/
def Header.Set (h : Header) (key value : String) : Header :=
  (key, [value]) :: h.filter (fun e => e.1 != key)

/-- First value of a header, empty when the header is absent, as `Header.Get`. -/
def Header.Get (h : Header) (key : String) : String :=
  match h.lookup key with
  | some (v :: _) => v
  | _ => ""

/-- Result of one `Write` call on a response writer: all bytes written, or an
error `err` after `n` bytes. -/
inductive WriteResult (ε : Type) where
  | ok
  | fail (n : Nat) (err : ε)
  deriving DecidableEq, Repr

/-- An `http.ResponseWriter`.

* `header`: the map returned by `Header()`;
* `sent`: the status code and the headers committed by the first `WriteHeader`
  or `Write`, `none` while nothing is committed;
* `body`: the bytes written;
* `results`: the results of the coming `Write` calls, in order; once the list is
  used up every `Write` succeeds. -/
structure ResponseWriter (ε : Type) where
  header : Header
  sent : Option (Int × Header)
  body : String
  results : List (WriteResult ε)
  deriving DecidableEq, Repr

/-- A response writer on which nothing was set or written, and whose writes succeed. -/
def ResponseWriter.fresh (ε : Type) : ResponseWriter ε :=
  { header := [], sent := none, body := "", results := [] }

/-- The status code of the response: the committed one, `200` while none is committed. -/
def ResponseWriter.status {ε : Type} (w : ResponseWriter ε) : Int :=
  match w.sent with
  | some (code, _) => code
  | none => 200

/-- The result the next `Write` call is going to have. -/
def ResponseWriter.nextResult {ε : Type} (w : ResponseWriter ε) : WriteResult ε :=
  match w.results with
  | [] => .ok
  | r :: _ => r

/-- Calls observed during the handling of a request, oldest first in a trace. -/
inductive Event (ε : Type) where
  /-- Call `w.Header().Set(key, value)`. -/
  | HeaderSet (key value : String)
  /-- Call `w.WriteHeader(code)`. -/
  | WriteHeader (code : Int)
  /-- Call `w.Write(p)`. -/
  | Write (p : String)
  /-- Call `debug.PrintStack()`. -/
  | PrintStack
  /-- Call `fission.GetHTTPError(err)`. -/
  | GetHTTPError (err : ε)
  /-- Call `log.Errorf`, with the formatted line. -/
  | Errorf (line : String)
  /-- Entry into `api.respondWithError(w, err)`. -/
  | respondWithError (err : ε)
  /-- Entry into `api.respondWithSuccess(w, resp)`. -/
  | respondWithSuccess (resp : String)
  deriving DecidableEq, Repr

/-- The state a handler runs on: the response writer and the trace of calls. -/
structure State (ε : Type) where
  w : ResponseWriter ε
  trace : List (Event ε)
  deriving DecidableEq, Repr

/-- A state with the writer `w` and an empty trace. -/
def State.start {ε : Type} (w : ResponseWriter ε) : State ε :=
  { w := w, trace := [] }

/-- Append an event to the trace. -/
def State.emit {ε : Type} (s : State ε) (e : Event ε) : State ε :=
  { s with trace := s.trace ++ [e] }

/-- The call `w.Header().Set(key, value)`. -/
def State.HeaderSet {ε : Type} (s : State ε) (key value : String) : State ε :=
  { w := { s.w with header := s.w.header.Set key value },
    trace := s.trace ++ [.HeaderSet key value] }

/-- Commit of the status line: the status code and the current headers become
the committed ones, unless a status is committed already. -/
def ResponseWriter.commit {ε : Type} (w : ResponseWriter ε) (code : Int) : ResponseWriter ε :=
  match w.sent with
  | none => { w with sent := some (code, w.header) }
  | some _ => w

/-- The call `w.WriteHeader(code)`: commits the status code and the current
headers, unless a status is committed already. -/
def State.WriteHeader {ε : Type} (s : State ε) (code : Int) : State ε :=
  { w := s.w.commit code, trace := s.trace ++ [.WriteHeader code] }

/-- The call `w.Write(p)`: commits status `200` with the current headers when
nothing is committed yet, then appends `p` to the body, or its first `n` bytes
when the write fails after `n` bytes. Returns the error of the write, if any. -/
def State.Write {ε : Type} (s : State ε) (p : String) : State ε × Option ε :=
  let w := s.w.commit 200
  match w.nextResult with
  | .ok =>
    ({ w := { w with body := w.body ++ p, results := w.results.tail },
       trace := s.trace ++ [.Write p] }, none)
  | .fail n err =>
    ({ w := { w with body := w.body ++ String.mk (p.data.take n), results := w.results.tail },
       trace := s.trace ++ [.Write p] }, some err)

/-- Formatted write as `fmt.Fprintf(w, format, args...)`; the result of the write is dropped. -/
def fmt.Fprintf {ε : Type} (s : State ε) (format : String) (args : List String) : State ε :=
  (s.Write (fmt.Sprintf format args)).1

/-- Line write as `fmt.Fprintln(w, a)`; the result of the write is dropped. -/
def fmt.Fprintln {ε : Type} (s : State ε) (a : String) : State ε :=
  (s.Write (a ++ "\n")).1

/-- The library function `http.Error(w, error, code)`: plain-text content type,
`nosniff`, the status code, and the message followed by a newline. -/
def http.Error {ε : Type} (s : State ε) (error : String) (code : Int) : State ε :=
  let s := s.HeaderSet "Content-Type" "text/plain; charset=utf-8"
  let s := s.HeaderSet "X-Content-Type-Options" "nosniff"
  let s := s.WriteHeader code
  fmt.Fprintln s error

/-! ## Response helpers and the home handler -/

/-- The method `respondWithError`. `GetHTTPError` is `fission.GetHTTPError`. -/
def respondWithError {ε : Type} (GetHTTPError : ε → Int × String) (s : State ε) (err : ε) : State ε :=
  let s := s.emit (.respondWithError err)
  let s := s.emit .PrintStack
  let s := s.emit (.GetHTTPError err)
  let (code, msg) := GetHTTPError err
  let s := s.emit (.Errorf (fmt.Sprintf "Error: %v: %v" [toString code, msg]))
  http.Error s msg code

/-- The method `respondWithSuccess`. -/
def respondWithSuccess {ε : Type} (GetHTTPError : ε → Int × String) (s : State ε) (resp : String) : State ε :=
  let s := s.emit (.respondWithSuccess resp)
  let s := s.HeaderSet "Content-Type" "application/json; charset=utf-8"
  let (s, err) := s.Write resp
  match err with
  | some err =>
    -- this will probably fail too, but try anyway
    respondWithError GetHTTPError s err
  | none => s

/-- An incoming request, as far as routing looks at it, and its body. -/
structure Request where
  method : String
  path : String
  body : String
  deriving DecidableEq, Repr

/-- The method `HomeHandler`. -/
def HomeHandler {ε : Type} (s : State ε) (_r : Request) : State ε :=
  let s := s.HeaderSet "Content-Type" "application/json; charset=utf-8"
  fmt.Fprintf s "\x7b\"message\": \"Fission API\", \"version\": \"0.1.0\"\x7d\n" []

/-! ## The API object -/

/-- Reason of a run-time panic. -/
inductive Panic where
  | nilDereference
  deriving DecidableEq, Repr

/-- The store of functions: embeds a `ResourceStore`. -/
structure FunctionStore (RS : Type) where
  ResourceStore : RS
  deriving DecidableEq, Repr

/-- The store of HTTP triggers: embeds a `ResourceStore`. -/
structure HTTPTriggerStore (RS : Type) where
  ResourceStore : RS
  deriving DecidableEq, Repr

/-- The store of time triggers: embeds a `ResourceStore`. -/
structure TimeTriggerStore (RS : Type) where
  ResourceStore : RS
  deriving DecidableEq, Repr

/-- The store of environments: embeds a `ResourceStore`. -/
structure EnvironmentStore (RS : Type) where
  ResourceStore : RS
  deriving DecidableEq, Repr

/-- The store of watches: embeds a `ResourceStore`. -/
structure WatchStore (RS : Type) where
  ResourceStore : RS
  deriving DecidableEq, Repr

/-- The type `API`: the five stores, embedded. -/
structure API (RS : Type) where
  FunctionStore : FunctionStore RS
  HTTPTriggerStore : HTTPTriggerStore RS
  TimeTriggerStore : TimeTriggerStore RS
  EnvironmentStore : EnvironmentStore RS
  WatchStore : WatchStore RS
  deriving DecidableEq, Repr

/-- The constructor `MakeAPI(rs *ResourceStore)`. The pointer `rs` is given by
the memory cell it points to, `none` for the nil pointer; the result is the API
together with that memory cell after the call, or the panic of dereferencing
nil. -/
def MakeAPI {RS : Type} (rs : Option RS) : Except Panic (API RS × Option RS) :=
  match rs with
  | none => .error .nilDereference
  | some v =>
    .ok ({ FunctionStore := { ResourceStore := v },
           HTTPTriggerStore := { ResourceStore := v },
           TimeTriggerStore := { ResourceStore := v },
           EnvironmentStore := { ResourceStore := v },
           WatchStore := { ResourceStore := v } }, some v)

/-! ## Routing -/

/-- The handler methods of `API` that `Serve` registers. -/
inductive Handler where
  | HomeHandler
  | FunctionApiList | FunctionApiCreate | FunctionApiGet | FunctionApiUpdate | FunctionApiDelete
  | HTTPTriggerApiList | HTTPTriggerApiCreate | HTTPTriggerApiGet | HTTPTriggerApiUpdate
  | HTTPTriggerApiDelete
  | EnvironmentApiList | EnvironmentApiCreate | EnvironmentApiGet | EnvironmentApiUpdate
  | EnvironmentApiDelete
  | WatchApiList | WatchApiCreate | WatchApiGet | WatchApiUpdate | WatchApiDelete
  | TimeTriggerApiList | TimeTriggerApiCreate | TimeTriggerApiGet | TimeTriggerApiUpdate
  | TimeTriggerApiDelete
  | FunctionLogsApiPost
  deriving DecidableEq, Repr

/-- A piece of a compiled path template: a literal character, or a variable,
which stands for the pattern `[^/]+`. -/
inductive Tok where
  | lit (c : Char)
  | var
  deriving DecidableEq, Repr

/-- Compilation of a path template: the text between an opening and a closing
brace is the name of a variable. `inVar` tells whether the scan is inside
braces. -/
def tokens : Bool → List Char → List Tok
  | _, [] => []
  | true, c :: rest => if c = '\x7d' then tokens false rest else tokens true rest
  | false, c :: rest =>
    if c = '\x7b' then Tok.var :: tokens true rest else Tok.lit c :: tokens false rest

/-- Anchored match of a compiled template against a path: a literal matches
itself, a variable matches one or more characters other than `/`. -/
def matchToks : List Tok → List Char → Bool
  | [], [] => true
  | [], _ :: _ => false
  | _ :: _, [] => false
  | Tok.lit c :: ts, x :: xs => c == x && matchToks ts xs
  | Tok.var :: ts, x :: xs => x != '/' && (matchToks ts xs || matchToks (Tok.var :: ts) xs)

/-- A route of the router: the path template given to `HandleFunc`, the methods
given to `Methods` (none when `Methods` is not called), and the handler. -/
structure Route where
  tpl : String
  methods : List String
  handler : Handler
  deriving DecidableEq, Repr

/-- Whether a route matches a request, as `Route.Match`: the path matches the
template, and the method is one of the methods of the route when it has any
(the methods `Serve` registers are upper-case literals, which `Methods` keeps
as they are). -/
def Route.Match (rt : Route) (method path : String) : Bool :=
  matchToks (tokens false rt.tpl.data) path.data &&
    (rt.methods.isEmpty || rt.methods.contains method)

/-- A router: its routes, in the order of registration. -/
structure Router where
  routes : List Route
  deriving DecidableEq, Repr

/-- Registration of a handler for a path, as `HandleFunc`. -/
def Router.HandleFunc (r : Router) (path : String) (f : Handler) : Router :=
  { routes := r.routes ++ [{ tpl := path, methods := [], handler := f }] }

/-- Restriction of the route registered last to the given methods, as `Methods`
applied to the result of `HandleFunc`. -/
def Router.Methods (r : Router) (methods : List String) : Router :=
  match r.routes.getLast? with
  | some rt => { routes := r.routes.dropLast ++ [{ rt with methods := methods }] }
  | none => r

/-- Route selection, as `Router.Match`: the handler of the first route, in the
order of registration, that matches the method and the path of the request;
`none` when no route matches, the case in which the router answers with its
not-found handler. -/
def Router.Match (r : Router) (method path : String) : Option Handler :=
  (r.routes.find? (fun rt => rt.Match method path)).map (fun rt => rt.handler)

/-- The routes that match a request. -/
def Router.matching (r : Router) (method path : String) : List Route :=
  r.routes.filter (fun rt => rt.Match method path)

/-- The elements of a path: the pieces between its slashes, empty pieces
included. -/
def path.elements : List Char → List (List Char)
  | [] => [[]]
  | c :: rest =>
    if c = '/' then [] :: path.elements rest
    else match path.elements rest with
      | [] => [[c]]
      | e :: es => (c :: e) :: es

/-- One step of `path.Clean` on the elements kept so far (the last one first):
an empty element and `.` are dropped; `..` removes the element before it, is
dropped at the root of a rooted path, and is kept at the start of a path that
is not rooted; any other element is kept. -/
def path.keep (rooted : Bool) (kept : List (List Char)) (e : List Char) : List (List Char) :=
  if e = [] ∨ e = ['.'] then kept
  else if e = ['.', '.'] then
    match kept with
    | top :: rest => if top = ['.', '.'] then e :: kept else rest
    | [] => if rooted then [] else [e]
  else e :: kept

/-- The elements of a path joined with slashes. -/
def path.join : List (List Char) → List Char
  | [] => []
  | [e] => e
  | e :: es => e ++ '/' :: path.join es

/-- The shortest equivalent path, as `path.Clean`: multiple slashes become one,
`.` elements and inner `..` elements (with the element before them) are
eliminated, `..` elements at the root are dropped; the result ends in a slash
only if it is the root, and the empty path becomes `.`. -/
def path.Clean (p : List Char) : List Char :=
  let rooted := decide (p.head? = some '/')
  let body := path.join ((path.elements p).foldl (path.keep rooted) []).reverse
  if rooted then '/' :: body
  else if body = [] then ['.'] else body

/-- The canonical form of a request path, as `cleanPath` of the router: the
empty path is `/`, a path without leading slash gets one, the path is cleaned
with `path.Clean`, and a trailing slash is put back. -/
def cleanPath (p : String) : String :=
  if p = "" then "/"
  else
    let p := if p.data.head? = some '/' then p.data else '/' :: p.data
    let np := path.Clean p
    if p.getLast? = some '/' ∧ np ≠ ['/'] then String.mk (np ++ ['/']) else String.mk np

/-- What answers a request. -/
inductive Served where
  /-- A handler of the API, selected by the route table. -/
  | api (h : Handler)
  /-- The not-found handler of the router. -/
  | notFound
  /-- The redirect of the router (status 301) to the same URL with the path in
  canonical form. -/
  | redirect (path : String)
  deriving DecidableEq, Repr

/-- The answer of the router to a request, as `Router.ServeHTTP` of a router
made by `mux.NewRouter()`: a request whose path is not in canonical form is
redirected to the canonical path before any route is looked at; otherwise the
request goes to the handler of the matched route, and to the not-found handler
when no route matches. -/
def Router.ServeHTTP (r : Router) (method path : String) : Served :=
  -- Clean path to canonical form and redirect.
  if cleanPath path ≠ path then .redirect (cleanPath path)
  else
    match r.Match method path with
    | some h => .api h
    | none => .notFound

/-- What `Serve` sets up: the listening address and the router. -/
structure Server where
  address : String
  router : Router
  deriving DecidableEq, Repr

/-- The method `Serve(port)`, up to the point where it starts listening. -/
def Serve (port : Int) : Server :=
  let r : Router := { routes := [] }
  let r := r.HandleFunc "/" .HomeHandler

  let r := (r.HandleFunc "/v1/functions" .FunctionApiList).Methods ["GET"]
  let r := (r.HandleFunc "/v1/functions" .FunctionApiCreate).Methods ["POST"]
  let r := (r.HandleFunc "/v1/functions/{function}" .FunctionApiGet).Methods ["GET"]
  let r := (r.HandleFunc "/v1/functions/{function}" .FunctionApiUpdate).Methods ["PUT"]
  let r := (r.HandleFunc "/v1/functions/{function}" .FunctionApiDelete).Methods ["DELETE"]

  let r := (r.HandleFunc "/v1/triggers/http" .HTTPTriggerApiList).Methods ["GET"]
  let r := (r.HandleFunc "/v1/triggers/http" .HTTPTriggerApiCreate).Methods ["POST"]
  let r := (r.HandleFunc "/v1/triggers/http/{httpTrigger}" .HTTPTriggerApiGet).Methods ["GET"]
  let r := (r.HandleFunc "/v1/triggers/http/{httpTrigger}" .HTTPTriggerApiUpdate).Methods ["PUT"]
  let r := (r.HandleFunc "/v1/triggers/http/{httpTrigger}" .HTTPTriggerApiDelete).Methods ["DELETE"]

  let r := (r.HandleFunc "/v1/environments" .EnvironmentApiList).Methods ["GET"]
  let r := (r.HandleFunc "/v1/environments" .EnvironmentApiCreate).Methods ["POST"]
  let r := (r.HandleFunc "/v1/environments/{environment}" .EnvironmentApiGet).Methods ["GET"]
  let r := (r.HandleFunc "/v1/environments/{environment}" .EnvironmentApiUpdate).Methods ["PUT"]
  let r := (r.HandleFunc "/v1/environments/{environment}" .EnvironmentApiDelete).Methods ["DELETE"]

  let r := (r.HandleFunc "/v1/watches" .WatchApiList).Methods ["GET"]
  let r := (r.HandleFunc "/v1/watches" .WatchApiCreate).Methods ["POST"]
  let r := (r.HandleFunc "/v1/watches/{watch}" .WatchApiGet).Methods ["GET"]
  let r := (r.HandleFunc "/v1/watches/{watch}" .WatchApiUpdate).Methods ["PUT"]
  let r := (r.HandleFunc "/v1/watches/{watch}" .WatchApiDelete).Methods ["DELETE"]

  let r := (r.HandleFunc "/v1/triggers/time" .TimeTriggerApiList).Methods ["GET"]
  let r := (r.HandleFunc "/v1/triggers/time" .TimeTriggerApiCreate).Methods ["POST"]
  let r := (r.HandleFunc "/v1/triggers/time/{timeTrigger}" .TimeTriggerApiGet).Methods ["GET"]
  let r := (r.HandleFunc "/v1/triggers/time/{timeTrigger}" .TimeTriggerApiUpdate).Methods ["PUT"]
  let r := (r.HandleFunc "/v1/triggers/time/{timeTrigger}" .TimeTriggerApiDelete).Methods ["DELETE"]

  let r := (r.HandleFunc "/proxy/{dbType}" .FunctionLogsApiPost).Methods ["POST"]

  let address := fmt.Sprintf ":%v" [toString port]
  { address := address, router := r }

/-! ## The declared route table -/

/-- A resource kind of the declared route table: the path of its collection and
the handlers of its five operations. -/
structure ResourceKind where
  base : String
  list : Handler
  create : Handler
  get : Handler
  update : Handler
  delete : Handler
  deriving DecidableEq, Repr

/-- The five resource kinds of the declared route table: functions, HTTP
triggers, environments, watches and time triggers. -/
def resourceKinds : List ResourceKind :=
  [{ base := "/v1/functions", list := .FunctionApiList, create := .FunctionApiCreate, get := .FunctionApiGet,
     update := .FunctionApiUpdate, delete := .FunctionApiDelete },
   { base := "/v1/triggers/http", list := .HTTPTriggerApiList, create := .HTTPTriggerApiCreate, get := .HTTPTriggerApiGet,
     update := .HTTPTriggerApiUpdate, delete := .HTTPTriggerApiDelete },
   { base := "/v1/environments", list := .EnvironmentApiList, create := .EnvironmentApiCreate, get := .EnvironmentApiGet,
     update := .EnvironmentApiUpdate, delete := .EnvironmentApiDelete },
   { base := "/v1/watches", list := .WatchApiList, create := .WatchApiCreate, get := .WatchApiGet,
     update := .WatchApiUpdate, delete := .WatchApiDelete },
   { base := "/v1/triggers/time", list := .TimeTriggerApiList, create := .TimeTriggerApiCreate, get := .TimeTriggerApiGet,
     update := .TimeTriggerApiUpdate, delete := .TimeTriggerApiDelete }]

/-- The request is answered by the handler `h`, and exactly one registered
route matches it. -/
def Router.onlyRoute (r : Router) (method path : String) (h : Handler) : Prop :=
  r.Match method path = some h ∧ (r.matching method path).length = 1

/-- A row of the declared route table: the method (`none` when the row holds
for every method), the literal path, and whether one placeholder follows it as
a further path segment. -/
structure Row where
  method : Option String
  base : String
  placeholder : Bool
  deriving DecidableEq, Repr

/-- Whether a row covers a request: the method is the one of the row, and the
path is the literal path of the row, followed, when the row has a placeholder,
by `/` and exactly one non-empty segment that contains no `/`. -/
def Row.covers (row : Row) (method path : String) : Bool :=
  (match row.method with
   | none => true
   | some m => decide (m = method)) &&
  (if row.placeholder then
     decide (path.data.take (row.base.data ++ ['/']).length = row.base.data ++ ['/']) &&
     !(path.data.drop (row.base.data ++ ['/']).length).isEmpty &&
     (path.data.drop (row.base.data ++ ['/']).length).all (fun c => c != '/')
   else decide (path.data = row.base.data))

/-- The five rows of a resource kind at the path `base`. -/
def crudRows (base : String) : List Row :=
  [{ method := some "GET", base := base, placeholder := false },
   { method := some "POST", base := base, placeholder := false },
   { method := some "GET", base := base, placeholder := true },
   { method := some "PUT", base := base, placeholder := true },
   { method := some "DELETE", base := base, placeholder := true }]

/-- The route table as the specification declares it: `GET /`, the five rows
of each of the five resource kinds, and `POST /proxy/{dbType}`. -/
def declaredTable : List Row :=
  [{ method := some "GET", base := "/", placeholder := false }] ++
  crudRows "/v1/functions" ++ crudRows "/v1/triggers/http" ++ crudRows "/v1/environments" ++
  crudRows "/v1/watches" ++ crudRows "/v1/triggers/time" ++
  [{ method := some "POST", base := "/proxy", placeholder := true }]

/-- The declared route table with its first row widened to every method: `/`
under any method, the five rows of each of the five resource kinds, and
`POST /proxy/{dbType}`. -/
def registeredTable : List Row :=
  [{ method := none, base := "/", placeholder := false }] ++
  crudRows "/v1/functions" ++ crudRows "/v1/triggers/http" ++ crudRows "/v1/environments" ++
  crudRows "/v1/watches" ++ crudRows "/v1/triggers/time" ++
  [{ method := some "POST", base := "/proxy", placeholder := true }]

/-! ## Auxiliary lemmas -/

theorem Sprintf_URL (x : String) : fmt.Sprintf "%s_URL" [x] = x ++ "_URL" := by
  simp [fmt.Sprintf, fmt.expand]; rfl

theorem Sprintf_USERNAME (x : String) : fmt.Sprintf "%s_USERNAME" [x] = x ++ "_USERNAME" := by
  simp [fmt.Sprintf, fmt.expand]; rfl

theorem Sprintf_PASSWORD (x : String) : fmt.Sprintf "%s_PASSWORD" [x] = x ++ "_PASSWORD" := by
  simp [fmt.Sprintf, fmt.expand]; rfl

theorem Header.Get_Set_self (h : Header) (key value : String) :
    (h.Set key value).Get key = value := by
  simp [Header.Set, Header.Get, List.lookup]

theorem Header.Get_Set_of_ne (h : Header) (key value k : String) (hk : k ≠ key) :
    (h.Set key value).Get k = h.Get k := by
  have hbeq : (k == key) = false := by simpa using hk
  have key_lookup : ∀ l : Header, (l.filter (fun e => e.1 != key)).lookup k = l.lookup k := by
    intro l
    induction l with
    | nil => rfl
    | cons e t ih =>
      obtain ⟨ek, ev⟩ := e
      by_cases hek : ek = key
      · subst hek
        simp [List.filter, List.lookup, hbeq, ih]
      · have hne : (ek != key) = true := by simpa using hek
        simp only [List.filter, hne, List.lookup, ih]
  simp [Header.Set, Header.Get, List.lookup, hbeq, key_lookup]

theorem ResponseWriter.commit_nextResult {ε : Type} (w : ResponseWriter ε) (code : Int) :
    (w.commit code).nextResult = w.nextResult := by
  unfold ResponseWriter.commit
  split <;> rfl

theorem ResponseWriter.commit_header {ε : Type} (w : ResponseWriter ε) (code : Int) :
    (w.commit code).header = w.header := by
  unfold ResponseWriter.commit
  split <;> rfl

theorem ResponseWriter.commit_body {ε : Type} (w : ResponseWriter ε) (code : Int) :
    (w.commit code).body = w.body := by
  unfold ResponseWriter.commit
  split <;> rfl

theorem ResponseWriter.commit_status_of_sent {ε : Type} (w : ResponseWriter ε) (code : Int)
    (c : Int × Header) (h : w.sent = some c) : w.commit code = w := by
  unfold ResponseWriter.commit
  rw [h]

theorem ResponseWriter.commit_sent_of_none {ε : Type} (w : ResponseWriter ε) (code : Int)
    (h : w.sent = none) : (w.commit code).sent = some (code, w.header) := by
  unfold ResponseWriter.commit
  rw [h]

theorem State.Write_trace {ε : Type} (s : State ε) (p : String) :
    (s.Write p).1.trace = s.trace ++ [Event.Write p] := by
  unfold State.Write
  dsimp only
  cases (s.w.commit 200).nextResult <;> rfl

theorem State.Write_error {ε : Type} (s : State ε) (p : String) :
    (s.Write p).2 = match s.w.nextResult with
      | WriteResult.ok => none
      | WriteResult.fail _ err => some err := by
  unfold State.Write
  dsimp only
  rw [ResponseWriter.commit_nextResult]
  cases s.w.nextResult <;> rfl

theorem State.Write_header {ε : Type} (s : State ε) (p : String) :
    (s.Write p).1.w.header = s.w.header := by
  unfold State.Write
  dsimp only
  cases (s.w.commit 200).nextResult <;> simp [ResponseWriter.commit_header]

theorem State.Write_sent {ε : Type} (s : State ε) (p : String) :
    (s.Write p).1.w.sent = (s.w.commit 200).sent := by
  unfold State.Write
  dsimp only
  cases (s.w.commit 200).nextResult <;> rfl

theorem State.Write_body_ok {ε : Type} (s : State ε) (p : String)
    (h : s.w.nextResult = WriteResult.ok) : (s.Write p).1.w.body = s.w.body ++ p := by
  unfold State.Write
  simp only [ResponseWriter.commit_nextResult, h, ResponseWriter.commit_body]

theorem respondWithError_trace {ε : Type} (G : ε → Int × String) (s : State ε) (err : ε) :
    (respondWithError G s err).trace
      = s.trace ++ [Event.respondWithError err,
                    Event.PrintStack,
                    Event.GetHTTPError err,
                    Event.Errorf (fmt.Sprintf "Error: %v: %v" [toString (G err).1, (G err).2]),
                    Event.HeaderSet "Content-Type" "text/plain; charset=utf-8",
                    Event.HeaderSet "X-Content-Type-Options" "nosniff",
                    Event.WriteHeader (G err).1,
                    Event.Write ((G err).2 ++ "\n")] := by
  simp [respondWithError, http.Error, fmt.Fprintln, State.Write_trace, State.emit,
    State.HeaderSet, State.WriteHeader]

theorem respondWithSuccess_eq {ε : Type} (G : ε → Int × String) (s : State ε) (resp : String) :
    respondWithSuccess G s resp
      = match (((s.emit (Event.respondWithSuccess resp)).HeaderSet "Content-Type"
          "application/json; charset=utf-8").Write resp).2 with
        | some err => respondWithError G (((s.emit (Event.respondWithSuccess resp)).HeaderSet
            "Content-Type" "application/json; charset=utf-8").Write resp).1 err
        | none => (((s.emit (Event.respondWithSuccess resp)).HeaderSet "Content-Type"
            "application/json; charset=utf-8").Write resp).1 := by
  unfold respondWithSuccess
  rfl

/-- The resolver in closed form: the configuration it returns and the process
state it leaves. -/
theorem getLogDBConfig_eq (D : String) (tbl : Char → Char) (p : Process) (n : String) :
    getLogDBConfig D tbl p n =
      ({ httpURL := if p.environ.value (strings.ToUpper tbl n ++ "_URL") = "" then D
                    else p.environ.value (strings.ToUpper tbl n ++ "_URL"),
         username := p.environ.value (strings.ToUpper tbl n ++ "_USERNAME"),
         password := p.environ.value (strings.ToUpper tbl n ++ "_PASSWORD") },
       { environ := p.environ,
         lookups := p.lookups ++ [strings.ToUpper tbl n ++ "_URL",
                                  strings.ToUpper tbl n ++ "_USERNAME",
                                  strings.ToUpper tbl n ++ "_PASSWORD"] }) := by
  simp [getLogDBConfig, os.Getenv, Sprintf_URL, Sprintf_USERNAME, Sprintf_PASSWORD]

/-! ## Log database configuration: theorems -/

/-- C1: for every backend name `n`, environment and default URL `D`, with
`P = strings.ToUpper n`, `getLogDBConfig n` returns exactly the triple whose
`httpURL` is the value of `P_URL` when that value is not empty and `D`
otherwise, whose `username` is the value of `P_USERNAME` and whose `password`
is the value of `P_PASSWORD` (unset variables read as empty). In particular
with `SPLUNK_URL=http://x`, `SPLUNK_USERNAME=u`, `SPLUNK_PASSWORD=p` the result
for `splunk` is `(http://x, u, p)`, and with no variable set the result for
`influxdb` is `(D, "", "")`. -/
theorem getLogDBConfig_returns (D : String) (tbl : Char → Char) :
    (∀ (p : Process) (n : String),
      (getLogDBConfig D tbl p n).1 =
        { httpURL := if p.environ.value (strings.ToUpper tbl n ++ "_URL") ≠ ""
                     then p.environ.value (strings.ToUpper tbl n ++ "_URL") else D,
          username := p.environ.value (strings.ToUpper tbl n ++ "_USERNAME"),
          password := p.environ.value (strings.ToUpper tbl n ++ "_PASSWORD") }) ∧
    (getLogDBConfig D tbl
        { environ := [("SPLUNK_URL", "http://x"), ("SPLUNK_USERNAME", "u"), ("SPLUNK_PASSWORD", "p")],
          lookups := [] } "splunk").1
      = { httpURL := "http://x", username := "u", password := "p" } ∧
    (getLogDBConfig D tbl { environ := [], lookups := [] } "influxdb").1
      = { httpURL := D, username := "", password := "" } := by
  refine ⟨?_, ?_, ?_⟩
  · intro p n
    rw [getLogDBConfig_eq]
    by_cases h : p.environ.value (strings.ToUpper tbl n ++ "_URL") = "" <;> simp [h]
  · rw [getLogDBConfig_eq]
    have hU : strings.ToUpper tbl "splunk" = "SPLUNK" := rfl
    rw [hU]
    have h1 : Environ.value [("SPLUNK_URL", "http://x"), ("SPLUNK_USERNAME", "u"),
        ("SPLUNK_PASSWORD", "p")] ("SPLUNK" ++ "_URL") = "http://x" := by decide
    have h2 : Environ.value [("SPLUNK_URL", "http://x"), ("SPLUNK_USERNAME", "u"),
        ("SPLUNK_PASSWORD", "p")] ("SPLUNK" ++ "_USERNAME") = "u" := by decide
    have h3 : Environ.value [("SPLUNK_URL", "http://x"), ("SPLUNK_USERNAME", "u"),
        ("SPLUNK_PASSWORD", "p")] ("SPLUNK" ++ "_PASSWORD") = "p" := by decide
    have h4 : ¬ ("http://x" = "") := by decide
    simp only [h1, h2, h3, if_neg h4]
  · rw [getLogDBConfig_eq]
    simp [Environ.value]

/-- C2: when the default URL `logdb.INFLUXDB_URL` is not empty, the `httpURL` of
the configuration returned by `getLogDBConfig` is not empty, for every backend
name and environment; `username` and `password` can both be empty. -/
theorem getLogDBConfig_httpURL_ne_empty (D : String) (hD : D ≠ "") (tbl : Char → Char) :
    (∀ (p : Process) (n : String), (getLogDBConfig D tbl p n).1.httpURL ≠ "") ∧
    (∃ (p : Process) (n : String),
      (getLogDBConfig D tbl p n).1.username = "" ∧ (getLogDBConfig D tbl p n).1.password = "") := by
  refine ⟨?_, ⟨{ environ := [], lookups := [] }, "influxdb", ?_⟩⟩
  · intro p n
    rw [getLogDBConfig_eq]
    by_cases h : p.environ.value (strings.ToUpper tbl n ++ "_URL") = "" <;> simp [h, hD]
  · rw [getLogDBConfig_eq]
    simp [Environ.value]

theorem getLogDBConfig_httpURL_ne_empty_witness :
    ("http://influxdb:8086" ≠ "") ∧
    (∀ (p : Process) (n : String), (getLogDBConfig "http://influxdb:8086" id p n).1.httpURL ≠ "") ∧
    (∃ (p : Process) (n : String),
      (getLogDBConfig "http://influxdb:8086" id p n).1.username = "" ∧
      (getLogDBConfig "http://influxdb:8086" id p n).1.password = "") :=
  ⟨by decide, getLogDBConfig_httpURL_ne_empty "http://influxdb:8086" (by decide) id⟩

/-- C3: `getLogDBConfig` is case-insensitive on the backend name: for two names
`a` and `b` with the same upper-casing, in every environment, the calls for `a`
and for `b` return equal configurations and look up the same three variables,
`U_URL`, `U_USERNAME` and `U_PASSWORD` with `U` the common upper-casing. -/
theorem getLogDBConfig_case_insensitive (D : String) (tbl : Char → Char) (p : Process)
    (a b : String) (h : strings.ToUpper tbl a = strings.ToUpper tbl b) :
    (getLogDBConfig D tbl p a).1 = (getLogDBConfig D tbl p b).1 ∧
    (getLogDBConfig D tbl p a).2.lookups
      = p.lookups ++ [strings.ToUpper tbl b ++ "_URL", strings.ToUpper tbl b ++ "_USERNAME",
                      strings.ToUpper tbl b ++ "_PASSWORD"] ∧
    (getLogDBConfig D tbl p b).2.lookups
      = p.lookups ++ [strings.ToUpper tbl b ++ "_URL", strings.ToUpper tbl b ++ "_USERNAME",
                      strings.ToUpper tbl b ++ "_PASSWORD"] := by
  simp only [getLogDBConfig_eq, h, and_self]

theorem getLogDBConfig_case_insensitive_witness :
    strings.ToUpper id "Splunk" = strings.ToUpper id "SPLUNK" ∧
    (getLogDBConfig "http://influxdb:8086" id
        { environ := [("SPLUNK_URL", "http://x")], lookups := [] } "Splunk").1
      = (getLogDBConfig "http://influxdb:8086" id
        { environ := [("SPLUNK_URL", "http://x")], lookups := [] } "SPLUNK").1 ∧
    (getLogDBConfig "http://influxdb:8086" id
        { environ := [("SPLUNK_URL", "http://x")], lookups := [] } "Splunk").2.lookups
      = [] ++ [strings.ToUpper id "SPLUNK" ++ "_URL", strings.ToUpper id "SPLUNK" ++ "_USERNAME",
               strings.ToUpper id "SPLUNK" ++ "_PASSWORD"] ∧
    (getLogDBConfig "http://influxdb:8086" id
        { environ := [("SPLUNK_URL", "http://x")], lookups := [] } "SPLUNK").2.lookups
      = [] ++ [strings.ToUpper id "SPLUNK" ++ "_URL", strings.ToUpper id "SPLUNK" ++ "_USERNAME",
               strings.ToUpper id "SPLUNK" ++ "_PASSWORD"] :=
  ⟨by decide, getLogDBConfig_case_insensitive "http://influxdb:8086" id
    { environ := [("SPLUNK_URL", "http://x")], lookups := [] } "Splunk" "SPLUNK" (by decide)⟩

/-! ## Home handler and response helpers: theorems -/

/-- C4: for every request, `HomeHandler` on a fresh response writer leaves the
status at its default `200` and never calls `WriteHeader`, sets the
`Content-Type` header to exactly `application/json; charset=utf-8` (also in the
committed headers), and writes a body that is exactly
`{"message": "Fission API", "version": "0.1.0"}` followed by one newline; the
result does not depend on the request. -/
theorem HomeHandler_response (ε : Type) (r : Request) :
    (HomeHandler (State.start (ResponseWriter.fresh ε)) r).w.status = 200 ∧
    (HomeHandler (State.start (ResponseWriter.fresh ε)) r).trace
      = [Event.HeaderSet "Content-Type" "application/json; charset=utf-8",
         Event.Write "\x7b\"message\": \"Fission API\", \"version\": \"0.1.0\"\x7d\n"] ∧
    (HomeHandler (State.start (ResponseWriter.fresh ε)) r).w.header.Get "Content-Type"
      = "application/json; charset=utf-8" ∧
    (HomeHandler (State.start (ResponseWriter.fresh ε)) r).w.sent
      = some (200, [("Content-Type", ["application/json; charset=utf-8"])]) ∧
    (HomeHandler (State.start (ResponseWriter.fresh ε)) r).w.body
      = "\x7b\"message\": \"Fission API\", \"version\": \"0.1.0\"\x7d\n" ∧
    (∀ r' : Request, HomeHandler (State.start (ResponseWriter.fresh ε)) r'
      = HomeHandler (State.start (ResponseWriter.fresh ε)) r) :=
  ⟨rfl, rfl, rfl, rfl, rfl, fun _ => rfl⟩

/-- C7: for every payload and every response writer whose next write succeeds,
`respondWithSuccess` sets the `Content-Type` header to
`application/json; charset=utf-8`, appends exactly the payload to the body,
leaves every other header and the status code as they were, calls neither
`WriteHeader` nor `respondWithError`: the calls it makes are exactly one
`Header().Set` and one `Write` of the payload. -/
theorem respondWithSuccess_ok {ε : Type} (G : ε → Int × String) (s : State ε) (resp : String)
    (h : s.w.nextResult = WriteResult.ok) :
    (respondWithSuccess G s resp).w.header.Get "Content-Type" = "application/json; charset=utf-8" ∧
    (respondWithSuccess G s resp).w.body = s.w.body ++ resp ∧
    (∀ k : String, k ≠ "Content-Type" →
      (respondWithSuccess G s resp).w.header.Get k = s.w.header.Get k) ∧
    (respondWithSuccess G s resp).w.status = s.w.status ∧
    (respondWithSuccess G s resp).trace
      = s.trace ++ [Event.respondWithSuccess resp,
                    Event.HeaderSet "Content-Type" "application/json; charset=utf-8",
                    Event.Write resp] := by
  have hnext : ((s.emit (Event.respondWithSuccess resp)).HeaderSet "Content-Type"
      "application/json; charset=utf-8").w.nextResult = WriteResult.ok := h
  have herr := State.Write_error ((s.emit (Event.respondWithSuccess resp)).HeaderSet
    "Content-Type" "application/json; charset=utf-8") resp
  rw [hnext] at herr
  have heq := respondWithSuccess_eq G s resp
  rw [herr] at heq
  simp only at heq
  rw [heq]
  refine ⟨?_, ?_, ?_, ?_, ?_⟩
  · rw [State.Write_header]
    exact Header.Get_Set_self _ _ _
  · rw [State.Write_body_ok _ _ hnext]
    rfl
  · intro k hk
    rw [State.Write_header]
    exact Header.Get_Set_of_ne _ _ _ _ hk
  · unfold ResponseWriter.status
    rw [State.Write_sent]
    cases hs : s.w.sent with
    | none =>
      rw [ResponseWriter.commit_sent_of_none _ _ (by simpa [State.HeaderSet, State.emit] using hs)]
    | some c =>
      rw [ResponseWriter.commit_status_of_sent _ _ c (by simpa [State.HeaderSet, State.emit] using hs)]
      simp [State.HeaderSet, State.emit, hs]
  · rw [State.Write_trace]
    simp [State.HeaderSet, State.emit]

theorem respondWithSuccess_ok_witness :
    (State.start (ResponseWriter.fresh String)).w.nextResult = WriteResult.ok ∧
    (respondWithSuccess (fun e => ((500 : Int), e)) (State.start (ResponseWriter.fresh String))
        "[1,2]").w.header.Get "Content-Type" = "application/json; charset=utf-8" ∧
    (respondWithSuccess (fun e => ((500 : Int), e)) (State.start (ResponseWriter.fresh String))
        "[1,2]").w.body = (State.start (ResponseWriter.fresh String)).w.body ++ "[1,2]" ∧
    (∀ k : String, k ≠ "Content-Type" →
      (respondWithSuccess (fun e => ((500 : Int), e)) (State.start (ResponseWriter.fresh String))
        "[1,2]").w.header.Get k = (State.start (ResponseWriter.fresh String)).w.header.Get k) ∧
    (respondWithSuccess (fun e => ((500 : Int), e)) (State.start (ResponseWriter.fresh String))
        "[1,2]").w.status = (State.start (ResponseWriter.fresh String)).w.status ∧
    (respondWithSuccess (fun e => ((500 : Int), e)) (State.start (ResponseWriter.fresh String))
        "[1,2]").trace
      = (State.start (ResponseWriter.fresh String)).trace ++
          [Event.respondWithSuccess "[1,2]",
           Event.HeaderSet "Content-Type" "application/json; charset=utf-8",
           Event.Write "[1,2]"] :=
  ⟨rfl, respondWithSuccess_ok (fun e => ((500 : Int), e)) (State.start (ResponseWriter.fresh String))
    "[1,2]" rfl⟩

/-- C8: for every payload and every response writer whose write of the payload
fails with error `e`, `respondWithSuccess` calls `respondWithError` exactly
once, with that error `e`, and returns: whatever the result of the write made
inside `respondWithError`, the calls are exactly the `Header().Set` and the one
`Write` of the payload, then the calls of one run of `respondWithError`
(stack dump, translation of `e`, log line, `http.Error` with its one `Write` of
the message line). No second run of `respondWithError` or `respondWithSuccess`
takes place and the payload is written once. -/
theorem respondWithSuccess_write_fails {ε : Type} (G : ε → Int × String) (s : State ε)
    (resp : String) (n : Nat) (e : ε) (h : s.w.nextResult = WriteResult.fail n e) :
    (respondWithSuccess G s resp).trace
      = s.trace ++ [Event.respondWithSuccess resp,
                    Event.HeaderSet "Content-Type" "application/json; charset=utf-8",
                    Event.Write resp,
                    Event.respondWithError e,
                    Event.PrintStack,
                    Event.GetHTTPError e,
                    Event.Errorf (fmt.Sprintf "Error: %v: %v" [toString (G e).1, (G e).2]),
                    Event.HeaderSet "Content-Type" "text/plain; charset=utf-8",
                    Event.HeaderSet "X-Content-Type-Options" "nosniff",
                    Event.WriteHeader (G e).1,
                    Event.Write ((G e).2 ++ "\n")] ∧
    ((respondWithSuccess G s resp).trace.drop s.trace.length).filter
        (fun ev => match ev with
          | Event.respondWithError _ => true
          | Event.respondWithSuccess _ => true
          | _ => false)
      = [Event.respondWithSuccess resp, Event.respondWithError e] := by
  have hnext : ((s.emit (Event.respondWithSuccess resp)).HeaderSet "Content-Type"
      "application/json; charset=utf-8").w.nextResult = WriteResult.fail n e := h
  have herr := State.Write_error ((s.emit (Event.respondWithSuccess resp)).HeaderSet
    "Content-Type" "application/json; charset=utf-8") resp
  rw [hnext] at herr
  have htrace : (respondWithSuccess G s resp).trace
      = s.trace ++ [Event.respondWithSuccess resp,
                    Event.HeaderSet "Content-Type" "application/json; charset=utf-8",
                    Event.Write resp,
                    Event.respondWithError e,
                    Event.PrintStack,
                    Event.GetHTTPError e,
                    Event.Errorf (fmt.Sprintf "Error: %v: %v" [toString (G e).1, (G e).2]),
                    Event.HeaderSet "Content-Type" "text/plain; charset=utf-8",
                    Event.HeaderSet "X-Content-Type-Options" "nosniff",
                    Event.WriteHeader (G e).1,
                    Event.Write ((G e).2 ++ "\n")] := by
    rw [respondWithSuccess_eq, herr]
    simp [respondWithError_trace, State.Write_trace, State.emit, State.HeaderSet]
  refine ⟨htrace, ?_⟩
  rw [htrace]
  simp [List.filter]

theorem respondWithSuccess_write_fails_witness :
    (State.start ({ header := [], sent := none, body := "", results := [WriteResult.fail 2 "broken pipe", WriteResult.fail 0 "broken pipe"] } : ResponseWriter String)).w.nextResult = WriteResult.fail 2 "broken pipe" ∧
    (respondWithSuccess (fun e => ((500 : Int), e))
      (State.start ({ header := [], sent := none, body := "", results := [WriteResult.fail 2 "broken pipe", WriteResult.fail 0 "broken pipe"] } : ResponseWriter String)) "[1,2]").trace
      = [] ++ [Event.respondWithSuccess "[1,2]",
                    Event.HeaderSet "Content-Type" "application/json; charset=utf-8",
                    Event.Write "[1,2]",
                    Event.respondWithError "broken pipe",
                    Event.PrintStack,
                    Event.GetHTTPError "broken pipe",
                    Event.Errorf (fmt.Sprintf "Error: %v: %v" [toString (500 : Int), "broken pipe"]),
                    Event.HeaderSet "Content-Type" "text/plain; charset=utf-8",
                    Event.HeaderSet "X-Content-Type-Options" "nosniff",
                    Event.WriteHeader 500,
                    Event.Write ("broken pipe" ++ "\n")] :=
  ⟨rfl, (respondWithSuccess_write_fails (fun e => ((500 : Int), e))
      (State.start ({ header := [], sent := none, body := "", results := [WriteResult.fail 2 "broken pipe", WriteResult.fail 0 "broken pipe"] } : ResponseWriter String))
      "[1,2]" 2 "broken pipe" rfl).1⟩

/-- C9: for every error `err`, with `(code, msg) = GetHTTPError err`,
`respondWithError` makes exactly these calls, in this order: the stack dump,
one call of the translator, the log line, and `http.Error(w, msg, code)`, that
is `Content-Type: text/plain; charset=utf-8` (not the JSON content type),
`nosniff`, `WriteHeader(code)` and one `Write` of `msg` followed by a newline,
with `code` and `msg` as the translator gave them. On a writer on which no
status is committed yet, the committed status is exactly `code`, with the
plain-text content type; when the write succeeds the body grows by exactly
`msg` and a newline. -/
theorem respondWithError_response {ε : Type} (G : ε → Int × String) (s : State ε) (err : ε) :
    (respondWithError G s err).trace
      = s.trace ++ [Event.respondWithError err,
                    Event.PrintStack,
                    Event.GetHTTPError err,
                    Event.Errorf (fmt.Sprintf "Error: %v: %v" [toString (G err).1, (G err).2]),
                    Event.HeaderSet "Content-Type" "text/plain; charset=utf-8",
                    Event.HeaderSet "X-Content-Type-Options" "nosniff",
                    Event.WriteHeader (G err).1,
                    Event.Write ((G err).2 ++ "\n")] ∧
    (respondWithError G s err).w.header.Get "Content-Type" = "text/plain; charset=utf-8" ∧
    (respondWithError G s err).w.header.Get "Content-Type" ≠ "application/json; charset=utf-8" ∧
    (s.w.sent = none →
      (respondWithError G s err).w.status = (G err).1 ∧
      (respondWithError G s err).w.sent
        = some ((G err).1, (s.w.header.Set "Content-Type" "text/plain; charset=utf-8").Set
            "X-Content-Type-Options" "nosniff") ∧
      ((s.w.header.Set "Content-Type" "text/plain; charset=utf-8").Set
            "X-Content-Type-Options" "nosniff").Get "Content-Type" = "text/plain; charset=utf-8") ∧
    (s.w.nextResult = WriteResult.ok →
      (respondWithError G s err).w.body = s.w.body ++ ((G err).2 ++ "\n")) := by
  have hct : (respondWithError G s err).w.header.Get "Content-Type"
      = "text/plain; charset=utf-8" := by
    simp only [respondWithError, http.Error, fmt.Fprintln, State.Write_header]
    simp only [State.WriteHeader, ResponseWriter.commit_header, State.HeaderSet, State.emit]
    rw [Header.Get_Set_of_ne _ _ _ _ (by decide)]
    exact Header.Get_Set_self _ _ _
  have hget : ((s.w.header.Set "Content-Type" "text/plain; charset=utf-8").Set
      "X-Content-Type-Options" "nosniff").Get "Content-Type" = "text/plain; charset=utf-8" := by
    rw [Header.Get_Set_of_ne _ _ _ _ (by decide)]
    exact Header.Get_Set_self _ _ _
  refine ⟨respondWithError_trace G s err, hct, ?_, ?_, ?_⟩
  · rw [hct]
    decide
  · intro hs
    have hsent : (respondWithError G s err).w.sent
        = some ((G err).1, (s.w.header.Set "Content-Type" "text/plain; charset=utf-8").Set
            "X-Content-Type-Options" "nosniff") := by
      simp only [respondWithError, http.Error, fmt.Fprintln, State.Write_sent]
      simp only [State.WriteHeader, State.HeaderSet, State.emit]
      simp [ResponseWriter.commit, hs]
    refine ⟨?_, hsent, hget⟩
    unfold ResponseWriter.status
    rw [hsent]
  · intro hr
    simp only [respondWithError, http.Error, fmt.Fprintln]
    rw [State.Write_body_ok]
    · simp only [State.WriteHeader, ResponseWriter.commit_body, State.HeaderSet, State.emit]
    · simp only [State.WriteHeader, ResponseWriter.commit_nextResult, State.HeaderSet, State.emit]
      exact hr

theorem respondWithError_response_witness :
    (respondWithError (fun e => ((404 : Int), e)) (State.start (ResponseWriter.fresh String))
        "not found").w.status = 404 ∧
    (respondWithError (fun e => ((404 : Int), e)) (State.start (ResponseWriter.fresh String))
        "not found").w.body = "" ++ ("not found" ++ "\n") :=
  ⟨((respondWithError_response (fun e => ((404 : Int), e))
      (State.start (ResponseWriter.fresh String)) "not found").2.2.2.1 rfl).1,
   (respondWithError_response (fun e => ((404 : Int), e))
      (State.start (ResponseWriter.fresh String)) "not found").2.2.2.2 rfl⟩

/-! ## The API object: theorem -/

/-- C10: for every resource-store configuration `v` behind the pointer `rs`,
`MakeAPI(rs)` does not fail and returns an API whose five embedded stores
(`FunctionStore`, `HTTPTriggerStore`, `TimeTriggerStore`, `EnvironmentStore`,
`WatchStore`) each hold a `ResourceStore` equal to `v`, so that the five hold
the same configuration; the memory behind `rs` is unchanged. -/
theorem MakeAPI_stores {RS : Type} (v : RS) :
    ∃ api : API RS, MakeAPI (some v) = Except.ok (api, some v) ∧
      api.FunctionStore.ResourceStore = v ∧
      api.HTTPTriggerStore.ResourceStore = v ∧
      api.TimeTriggerStore.ResourceStore = v ∧
      api.EnvironmentStore.ResourceStore = v ∧
      api.WatchStore.ResourceStore = v ∧
      api.FunctionStore.ResourceStore = api.HTTPTriggerStore.ResourceStore ∧
      api.HTTPTriggerStore.ResourceStore = api.TimeTriggerStore.ResourceStore ∧
      api.TimeTriggerStore.ResourceStore = api.EnvironmentStore.ResourceStore ∧
      api.EnvironmentStore.ResourceStore = api.WatchStore.ResourceStore :=
  ⟨_, rfl, rfl, rfl, rfl, rfl, rfl, rfl, rfl, rfl, rfl⟩

/-! ## Routing: lemmas -/

/-- The routes registered by `Serve`, in the order of registration. -/
theorem Serve_routes (port : Int) :
    (Serve port).router.routes =
      [{ tpl := "/", methods := [], handler := .HomeHandler },
       { tpl := "/v1/functions", methods := ["GET"], handler := .FunctionApiList },
       { tpl := "/v1/functions", methods := ["POST"], handler := .FunctionApiCreate },
       { tpl := "/v1/functions/{function}", methods := ["GET"], handler := .FunctionApiGet },
       { tpl := "/v1/functions/{function}", methods := ["PUT"], handler := .FunctionApiUpdate },
       { tpl := "/v1/functions/{function}", methods := ["DELETE"], handler := .FunctionApiDelete },
       { tpl := "/v1/triggers/http", methods := ["GET"], handler := .HTTPTriggerApiList },
       { tpl := "/v1/triggers/http", methods := ["POST"], handler := .HTTPTriggerApiCreate },
       { tpl := "/v1/triggers/http/{httpTrigger}", methods := ["GET"], handler := .HTTPTriggerApiGet },
       { tpl := "/v1/triggers/http/{httpTrigger}", methods := ["PUT"], handler := .HTTPTriggerApiUpdate },
       { tpl := "/v1/triggers/http/{httpTrigger}", methods := ["DELETE"], handler := .HTTPTriggerApiDelete },
       { tpl := "/v1/environments", methods := ["GET"], handler := .EnvironmentApiList },
       { tpl := "/v1/environments", methods := ["POST"], handler := .EnvironmentApiCreate },
       { tpl := "/v1/environments/{environment}", methods := ["GET"], handler := .EnvironmentApiGet },
       { tpl := "/v1/environments/{environment}", methods := ["PUT"], handler := .EnvironmentApiUpdate },
       { tpl := "/v1/environments/{environment}", methods := ["DELETE"], handler := .EnvironmentApiDelete },
       { tpl := "/v1/watches", methods := ["GET"], handler := .WatchApiList },
       { tpl := "/v1/watches", methods := ["POST"], handler := .WatchApiCreate },
       { tpl := "/v1/watches/{watch}", methods := ["GET"], handler := .WatchApiGet },
       { tpl := "/v1/watches/{watch}", methods := ["PUT"], handler := .WatchApiUpdate },
       { tpl := "/v1/watches/{watch}", methods := ["DELETE"], handler := .WatchApiDelete },
       { tpl := "/v1/triggers/time", methods := ["GET"], handler := .TimeTriggerApiList },
       { tpl := "/v1/triggers/time", methods := ["POST"], handler := .TimeTriggerApiCreate },
       { tpl := "/v1/triggers/time/{timeTrigger}", methods := ["GET"], handler := .TimeTriggerApiGet },
       { tpl := "/v1/triggers/time/{timeTrigger}", methods := ["PUT"], handler := .TimeTriggerApiUpdate },
       { tpl := "/v1/triggers/time/{timeTrigger}", methods := ["DELETE"], handler := .TimeTriggerApiDelete },
       { tpl := "/proxy/{dbType}", methods := ["POST"], handler := .FunctionLogsApiPost }] := rfl

theorem matchToks_var_end (l : List Char) (hne : l ≠ []) (hs : '/' ∉ l) :
    matchToks [Tok.var] l = true := by
  induction l with
  | nil => exact absurd rfl hne
  | cons x xs ih =>
    have hx : x ≠ '/' := fun h => hs (h ▸ List.mem_cons_self _ _)
    have hxs : '/' ∉ xs := fun h => hs (List.mem_cons_of_mem _ h)
    cases xs with
    | nil => simp [matchToks, hx]
    | cons y ys =>
      have hrec := ih (List.cons_ne_nil _ _) hxs
      show (x != '/' && (matchToks [] (y :: ys) || matchToks [Tok.var] (y :: ys))) = true
      rw [hrec]
      simp [hx]

theorem matchToks_nil (l : List Char) : matchToks [] l = l.isEmpty := by
  cases l <;> rfl

theorem matchToks_var (l : List Char) :
    matchToks [Tok.var] l = (!l.isEmpty && l.all (fun c => c != '/')) := by
  induction l with
  | nil => rfl
  | cons x xs ih =>
    show (x != '/' && (matchToks [] xs || matchToks [Tok.var] xs)) = _
    rw [ih, matchToks_nil]
    cases xs <;> simp

theorem matchToks_lits (a : List Char) (ts : List Tok) (l : List Char) :
    matchToks (a.map Tok.lit ++ ts) l
      = (decide (l.take a.length = a) && matchToks ts (l.drop a.length)) := by
  induction a generalizing l with
  | nil => simp
  | cons c a ih =>
    cases l with
    | nil => cases a <;> simp [matchToks]
    | cons x xs =>
      show (c == x && matchToks (a.map Tok.lit ++ ts) xs) = _
      rw [ih]
      by_cases hcx : c = x
      · subst hcx; simp
      · have hxc : ¬ x = c := fun h => hcx h.symm
        simp [hcx, hxc]

theorem matchToks_lits_only (a : List Char) (l : List Char) :
    matchToks (a.map Tok.lit) l = decide (l = a) := by
  have h := matchToks_lits a [] l
  rw [List.append_nil] at h
  rw [h, matchToks_nil]
  by_cases hl : l = a
  · subst hl; simp
  · have : ¬ (l.take a.length = a ∧ a.length ≥ l.length) := by
      rintro ⟨h1, h2⟩
      exact hl (by rw [← h1, List.take_of_length_le h2])
    simp only [hl, decide_False]
    by_cases h1 : l.take a.length = a
    · have h2 : ¬ a.length ≥ l.length := fun h2 => this ⟨h1, h2⟩
      have h3 : l.drop a.length ≠ [] := by
        intro h3
        exact h2 (List.drop_eq_nil_iff.mp h3)
      cases hd : l.drop a.length with
      | nil => exact absurd hd h3
      | cons y ys => simp
    · simp [h1]

theorem String.data_ne_nil_of_ne_empty (seg : String) (h : seg ≠ "") : seg.data ≠ [] := by
  intro hd
  apply h
  cases seg
  simp_all

theorem Router.Match_eq_matching_head (r : Router) (method path : String) :
    r.Match method path = (r.matching method path).head?.map (fun rt => rt.handler) := by
  unfold Router.Match Router.matching
  congr 1
  induction r.routes with
  | nil => rfl
  | cons rt rest ih =>
    by_cases h : rt.Match method path = true
    · simp [List.find?, List.filter, h]
    · have hf : rt.Match method path = false := by simpa using h
      simp only [List.find?, List.filter, hf]
      exact ih

theorem Router.onlyRoute_of_matching (r : Router) (method path : String) (rt : Route)
    (h : r.matching method path = [rt]) : r.onlyRoute method path rt.handler := by
  unfold Router.onlyRoute
  rw [Router.Match_eq_matching_head, h]
  exact ⟨rfl, rfl⟩

theorem Serve_matching_Function (port : Int) :
    (Serve port).router.matching "GET" "/v1/functions"
      = [{ tpl := "/v1/functions", methods := ["GET"], handler := .FunctionApiList }] ∧
    (Serve port).router.matching "POST" "/v1/functions"
      = [{ tpl := "/v1/functions", methods := ["POST"], handler := .FunctionApiCreate }] ∧
    ∀ seg : String, seg ≠ "" → '/' ∉ seg.data →
      (Serve port).router.matching "GET" ("/v1/functions" ++ "/" ++ seg)
        = [{ tpl := "/v1/functions/{function}", methods := ["GET"], handler := .FunctionApiGet }] ∧
      (Serve port).router.matching "PUT" ("/v1/functions" ++ "/" ++ seg)
        = [{ tpl := "/v1/functions/{function}", methods := ["PUT"], handler := .FunctionApiUpdate }] ∧
      (Serve port).router.matching "DELETE" ("/v1/functions" ++ "/" ++ seg)
        = [{ tpl := "/v1/functions/{function}", methods := ["DELETE"], handler := .FunctionApiDelete }] := by
  refine ⟨by rw [Router.matching, Serve_routes]; decide, by rw [Router.matching, Serve_routes]; decide,
    fun seg h1 h2 => ?_⟩
  have h3 := String.data_ne_nil_of_ne_empty seg h1
  refine ⟨?_, ?_, ?_⟩ <;>
    simp [Router.matching, Serve_routes, Route.Match, tokens, matchToks,
      matchToks_var_end _ h3 h2]

theorem Serve_matching_HTTPTrigger (port : Int) :
    (Serve port).router.matching "GET" "/v1/triggers/http"
      = [{ tpl := "/v1/triggers/http", methods := ["GET"], handler := .HTTPTriggerApiList }] ∧
    (Serve port).router.matching "POST" "/v1/triggers/http"
      = [{ tpl := "/v1/triggers/http", methods := ["POST"], handler := .HTTPTriggerApiCreate }] ∧
    ∀ seg : String, seg ≠ "" → '/' ∉ seg.data →
      (Serve port).router.matching "GET" ("/v1/triggers/http" ++ "/" ++ seg)
        = [{ tpl := "/v1/triggers/http/{httpTrigger}", methods := ["GET"], handler := .HTTPTriggerApiGet }] ∧
      (Serve port).router.matching "PUT" ("/v1/triggers/http" ++ "/" ++ seg)
        = [{ tpl := "/v1/triggers/http/{httpTrigger}", methods := ["PUT"], handler := .HTTPTriggerApiUpdate }] ∧
      (Serve port).router.matching "DELETE" ("/v1/triggers/http" ++ "/" ++ seg)
        = [{ tpl := "/v1/triggers/http/{httpTrigger}", methods := ["DELETE"], handler := .HTTPTriggerApiDelete }] := by
  refine ⟨by rw [Router.matching, Serve_routes]; decide, by rw [Router.matching, Serve_routes]; decide,
    fun seg h1 h2 => ?_⟩
  have h3 := String.data_ne_nil_of_ne_empty seg h1
  refine ⟨?_, ?_, ?_⟩ <;>
    simp [Router.matching, Serve_routes, Route.Match, tokens, matchToks,
      matchToks_var_end _ h3 h2]

theorem Serve_matching_Environment (port : Int) :
    (Serve port).router.matching "GET" "/v1/environments"
      = [{ tpl := "/v1/environments", methods := ["GET"], handler := .EnvironmentApiList }] ∧
    (Serve port).router.matching "POST" "/v1/environments"
      = [{ tpl := "/v1/environments", methods := ["POST"], handler := .EnvironmentApiCreate }] ∧
    ∀ seg : String, seg ≠ "" → '/' ∉ seg.data →
      (Serve port).router.matching "GET" ("/v1/environments" ++ "/" ++ seg)
        = [{ tpl := "/v1/environments/{environment}", methods := ["GET"], handler := .EnvironmentApiGet }] ∧
      (Serve port).router.matching "PUT" ("/v1/environments" ++ "/" ++ seg)
        = [{ tpl := "/v1/environments/{environment}", methods := ["PUT"], handler := .EnvironmentApiUpdate }] ∧
      (Serve port).router.matching "DELETE" ("/v1/environments" ++ "/" ++ seg)
        = [{ tpl := "/v1/environments/{environment}", methods := ["DELETE"], handler := .EnvironmentApiDelete }] := by
  refine ⟨by rw [Router.matching, Serve_routes]; decide, by rw [Router.matching, Serve_routes]; decide,
    fun seg h1 h2 => ?_⟩
  have h3 := String.data_ne_nil_of_ne_empty seg h1
  refine ⟨?_, ?_, ?_⟩ <;>
    simp [Router.matching, Serve_routes, Route.Match, tokens, matchToks,
      matchToks_var_end _ h3 h2]

theorem Serve_matching_Watch (port : Int) :
    (Serve port).router.matching "GET" "/v1/watches"
      = [{ tpl := "/v1/watches", methods := ["GET"], handler := .WatchApiList }] ∧
    (Serve port).router.matching "POST" "/v1/watches"
      = [{ tpl := "/v1/watches", methods := ["POST"], handler := .WatchApiCreate }] ∧
    ∀ seg : String, seg ≠ "" → '/' ∉ seg.data →
      (Serve port).router.matching "GET" ("/v1/watches" ++ "/" ++ seg)
        = [{ tpl := "/v1/watches/{watch}", methods := ["GET"], handler := .WatchApiGet }] ∧
      (Serve port).router.matching "PUT" ("/v1/watches" ++ "/" ++ seg)
        = [{ tpl := "/v1/watches/{watch}", methods := ["PUT"], handler := .WatchApiUpdate }] ∧
      (Serve port).router.matching "DELETE" ("/v1/watches" ++ "/" ++ seg)
        = [{ tpl := "/v1/watches/{watch}", methods := ["DELETE"], handler := .WatchApiDelete }] := by
  refine ⟨by rw [Router.matching, Serve_routes]; decide, by rw [Router.matching, Serve_routes]; decide,
    fun seg h1 h2 => ?_⟩
  have h3 := String.data_ne_nil_of_ne_empty seg h1
  refine ⟨?_, ?_, ?_⟩ <;>
    simp [Router.matching, Serve_routes, Route.Match, tokens, matchToks,
      matchToks_var_end _ h3 h2]

theorem Serve_matching_TimeTrigger (port : Int) :
    (Serve port).router.matching "GET" "/v1/triggers/time"
      = [{ tpl := "/v1/triggers/time", methods := ["GET"], handler := .TimeTriggerApiList }] ∧
    (Serve port).router.matching "POST" "/v1/triggers/time"
      = [{ tpl := "/v1/triggers/time", methods := ["POST"], handler := .TimeTriggerApiCreate }] ∧
    ∀ seg : String, seg ≠ "" → '/' ∉ seg.data →
      (Serve port).router.matching "GET" ("/v1/triggers/time" ++ "/" ++ seg)
        = [{ tpl := "/v1/triggers/time/{timeTrigger}", methods := ["GET"], handler := .TimeTriggerApiGet }] ∧
      (Serve port).router.matching "PUT" ("/v1/triggers/time" ++ "/" ++ seg)
        = [{ tpl := "/v1/triggers/time/{timeTrigger}", methods := ["PUT"], handler := .TimeTriggerApiUpdate }] ∧
      (Serve port).router.matching "DELETE" ("/v1/triggers/time" ++ "/" ++ seg)
        = [{ tpl := "/v1/triggers/time/{timeTrigger}", methods := ["DELETE"], handler := .TimeTriggerApiDelete }] := by
  refine ⟨by rw [Router.matching, Serve_routes]; decide, by rw [Router.matching, Serve_routes]; decide,
    fun seg h1 h2 => ?_⟩
  have h3 := String.data_ne_nil_of_ne_empty seg h1
  refine ⟨?_, ?_, ?_⟩ <;>
    simp [Router.matching, Serve_routes, Route.Match, tokens, matchToks,
      matchToks_var_end _ h3 h2]

theorem Route_Match_home (method path : String) :
    Route.Match { tpl := "/", methods := [], handler := .HomeHandler } method path
      = Row.covers { method := none, base := "/", placeholder := false } method path := by
  have htok : tokens false "/".data = "/".data.map Tok.lit := rfl
  simp only [Route.Match, Row.covers, htok, matchToks_lits_only]
  simp

theorem Route_Match_collection (tpl m : String) (h : Handler) (method path : String)
    (htok : tokens false tpl.data = tpl.data.map Tok.lit) :
    Route.Match { tpl := tpl, methods := [m], handler := h } method path
      = Row.covers { method := some m, base := tpl, placeholder := false } method path := by
  simp only [Route.Match, Row.covers, htok, matchToks_lits_only]
  by_cases hm : m = method
  · subst hm; simp
  · have hm2 : ¬ method = m := fun h => hm h.symm
    simp [hm, hm2]

theorem Route_Match_item (tpl base m : String) (h : Handler) (method path : String)
    (htok : tokens false tpl.data = (base.data ++ ['/']).map Tok.lit ++ [Tok.var]) :
    Route.Match { tpl := tpl, methods := [m], handler := h } method path
      = Row.covers { method := some m, base := base, placeholder := true } method path := by
  simp only [Route.Match, Row.covers, htok, matchToks_lits, matchToks_var]
  by_cases hm : m = method
  · subst hm; simp [Bool.and_comm, Bool.and_assoc, Bool.and_left_comm]
  · have hm2 : ¬ method = m := fun h => hm h.symm
    simp [hm, hm2]

/-- Route by route, the routes registered by `Serve` match a request exactly
when the corresponding row of `registeredTable` covers it. -/
theorem Serve_Match_covers (port : Int) (method path : String) :
    (Serve port).router.routes.map (fun rt => rt.Match method path)
      = registeredTable.map (fun row => row.covers method path) := by
  rw [Serve_routes]
  simp only [registeredTable, crudRows, List.cons_append, List.nil_append, List.map_cons,
    List.map_nil]
  simp only [Route_Match_home method path,
    Route_Match_collection "/v1/functions" "GET" .FunctionApiList method path rfl,
    Route_Match_collection "/v1/functions" "POST" .FunctionApiCreate method path rfl,
    Route_Match_item "/v1/functions/{function}" "/v1/functions" "GET" .FunctionApiGet method path rfl,
    Route_Match_item "/v1/functions/{function}" "/v1/functions" "PUT" .FunctionApiUpdate method path rfl,
    Route_Match_item "/v1/functions/{function}" "/v1/functions" "DELETE" .FunctionApiDelete method path rfl,
    Route_Match_collection "/v1/triggers/http" "GET" .HTTPTriggerApiList method path rfl,
    Route_Match_collection "/v1/triggers/http" "POST" .HTTPTriggerApiCreate method path rfl,
    Route_Match_item "/v1/triggers/http/{httpTrigger}" "/v1/triggers/http" "GET" .HTTPTriggerApiGet method path rfl,
    Route_Match_item "/v1/triggers/http/{httpTrigger}" "/v1/triggers/http" "PUT" .HTTPTriggerApiUpdate method path rfl,
    Route_Match_item "/v1/triggers/http/{httpTrigger}" "/v1/triggers/http" "DELETE" .HTTPTriggerApiDelete method path rfl,
    Route_Match_collection "/v1/environments" "GET" .EnvironmentApiList method path rfl,
    Route_Match_collection "/v1/environments" "POST" .EnvironmentApiCreate method path rfl,
    Route_Match_item "/v1/environments/{environment}" "/v1/environments" "GET" .EnvironmentApiGet method path rfl,
    Route_Match_item "/v1/environments/{environment}" "/v1/environments" "PUT" .EnvironmentApiUpdate method path rfl,
    Route_Match_item "/v1/environments/{environment}" "/v1/environments" "DELETE" .EnvironmentApiDelete method path rfl,
    Route_Match_collection "/v1/watches" "GET" .WatchApiList method path rfl,
    Route_Match_collection "/v1/watches" "POST" .WatchApiCreate method path rfl,
    Route_Match_item "/v1/watches/{watch}" "/v1/watches" "GET" .WatchApiGet method path rfl,
    Route_Match_item "/v1/watches/{watch}" "/v1/watches" "PUT" .WatchApiUpdate method path rfl,
    Route_Match_item "/v1/watches/{watch}" "/v1/watches" "DELETE" .WatchApiDelete method path rfl,
    Route_Match_collection "/v1/triggers/time" "GET" .TimeTriggerApiList method path rfl,
    Route_Match_collection "/v1/triggers/time" "POST" .TimeTriggerApiCreate method path rfl,
    Route_Match_item "/v1/triggers/time/{timeTrigger}" "/v1/triggers/time" "GET" .TimeTriggerApiGet method path rfl,
    Route_Match_item "/v1/triggers/time/{timeTrigger}" "/v1/triggers/time" "PUT" .TimeTriggerApiUpdate method path rfl,
    Route_Match_item "/v1/triggers/time/{timeTrigger}" "/v1/triggers/time" "DELETE" .TimeTriggerApiDelete method path rfl,
    Route_Match_item "/proxy/{dbType}" "/proxy" "POST" .FunctionLogsApiPost method path rfl]

theorem Router.matching_eq_nil_of_map (r : Router) (method path : String) (bs : List Bool)
    (h : r.routes.map (fun rt => rt.Match method path) = bs) (hb : ∀ b ∈ bs, b = false) :
    r.matching method path = [] := by
  unfold Router.matching
  rw [List.filter_eq_nil_iff]
  intro rt hrt
  have hmem : rt.Match method path ∈ bs := by
    rw [← h]
    exact List.mem_map_of_mem _ hrt
  rw [hb _ hmem]
  simp

/-! ## Routing: theorems -/

/-- C5: in the route table registered by `Serve`, for each of the five resource
kinds (functions at `/v1/functions`, HTTP triggers at `/v1/triggers/http`,
environments at `/v1/environments`, watches at `/v1/watches`, time triggers at
`/v1/triggers/time`): `GET` on the collection path goes to the List handler of
the kind and `POST` on it to its Create handler; for every non-empty segment
`seg` without `/`, `GET`, `PUT` and `DELETE` on the collection path followed by
`/seg` go to the Get, Update and Delete handlers of the kind; and in each of
these cases exactly one registered route matches the request. -/
theorem Serve_dispatch (port : Int) (k : ResourceKind) (hk : k ∈ resourceKinds) :
    (Serve port).router.onlyRoute "GET" k.base k.list ∧
    (Serve port).router.onlyRoute "POST" k.base k.create ∧
    ∀ seg : String, seg ≠ "" → '/' ∉ seg.data →
      (Serve port).router.onlyRoute "GET" (k.base ++ "/" ++ seg) k.get ∧
      (Serve port).router.onlyRoute "PUT" (k.base ++ "/" ++ seg) k.update ∧
      (Serve port).router.onlyRoute "DELETE" (k.base ++ "/" ++ seg) k.delete := by
  simp only [resourceKinds, List.mem_cons, List.mem_singleton, List.not_mem_nil, or_false] at hk
  rcases hk with rfl | rfl | rfl | rfl | rfl
  · have h := Serve_matching_Function port
    exact ⟨Router.onlyRoute_of_matching _ _ _ _ h.1, Router.onlyRoute_of_matching _ _ _ _ h.2.1,
      fun seg h1 h2 => ⟨Router.onlyRoute_of_matching _ _ _ _ (h.2.2 seg h1 h2).1,
        Router.onlyRoute_of_matching _ _ _ _ (h.2.2 seg h1 h2).2.1,
        Router.onlyRoute_of_matching _ _ _ _ (h.2.2 seg h1 h2).2.2⟩⟩
  · have h := Serve_matching_HTTPTrigger port
    exact ⟨Router.onlyRoute_of_matching _ _ _ _ h.1, Router.onlyRoute_of_matching _ _ _ _ h.2.1,
      fun seg h1 h2 => ⟨Router.onlyRoute_of_matching _ _ _ _ (h.2.2 seg h1 h2).1,
        Router.onlyRoute_of_matching _ _ _ _ (h.2.2 seg h1 h2).2.1,
        Router.onlyRoute_of_matching _ _ _ _ (h.2.2 seg h1 h2).2.2⟩⟩
  · have h := Serve_matching_Environment port
    exact ⟨Router.onlyRoute_of_matching _ _ _ _ h.1, Router.onlyRoute_of_matching _ _ _ _ h.2.1,
      fun seg h1 h2 => ⟨Router.onlyRoute_of_matching _ _ _ _ (h.2.2 seg h1 h2).1,
        Router.onlyRoute_of_matching _ _ _ _ (h.2.2 seg h1 h2).2.1,
        Router.onlyRoute_of_matching _ _ _ _ (h.2.2 seg h1 h2).2.2⟩⟩
  · have h := Serve_matching_Watch port
    exact ⟨Router.onlyRoute_of_matching _ _ _ _ h.1, Router.onlyRoute_of_matching _ _ _ _ h.2.1,
      fun seg h1 h2 => ⟨Router.onlyRoute_of_matching _ _ _ _ (h.2.2 seg h1 h2).1,
        Router.onlyRoute_of_matching _ _ _ _ (h.2.2 seg h1 h2).2.1,
        Router.onlyRoute_of_matching _ _ _ _ (h.2.2 seg h1 h2).2.2⟩⟩
  · have h := Serve_matching_TimeTrigger port
    exact ⟨Router.onlyRoute_of_matching _ _ _ _ h.1, Router.onlyRoute_of_matching _ _ _ _ h.2.1,
      fun seg h1 h2 => ⟨Router.onlyRoute_of_matching _ _ _ _ (h.2.2 seg h1 h2).1,
        Router.onlyRoute_of_matching _ _ _ _ (h.2.2 seg h1 h2).2.1,
        Router.onlyRoute_of_matching _ _ _ _ (h.2.2 seg h1 h2).2.2⟩⟩

theorem Serve_dispatch_witness :
    (Serve 8888).router.onlyRoute "PUT" ("/v1/watches" ++ "/" ++ "w") Handler.WatchApiUpdate :=
  ((Serve_dispatch 8888
      { base := "/v1/watches", list := .WatchApiList, create := .WatchApiCreate,
        get := .WatchApiGet, update := .WatchApiUpdate, delete := .WatchApiDelete }
      (by decide)).2.2 "w" (by decide) (by decide)).2.1

/-- Counterexample to C6: `POST /` is covered by no row of the declared route
table, whose first row is `GET /`, yet the router built by `Serve` answers it
with `HomeHandler`, the route of `/` being registered without `Methods`. -/
theorem Serve_root_any_method :
    declaredTable.filter (fun row => row.covers "POST" "/") = [] ∧
    (Serve 8888).router.Match "POST" "/" = some Handler.HomeHandler ∧
    (Serve 8888).router.ServeHTTP "POST" "/" = Served.api Handler.HomeHandler := by
  decide

/-- C6, amended: for every method and path that no row of the registered table
covers (`/` under any method; the five rows of each of the five resource
kinds; `POST /proxy/{dbType}`), no route registered by `Serve` matches and the
router answers with no handler of the API: a path in canonical form gets the
not-found handler of the router, and a path not in canonical form gets the
redirect of the router to its canonical form. -/
theorem Serve_unmatched_not_found (port : Int) (method path : String)
    (h : ∀ row ∈ registeredTable, row.covers method path = false) :
    (Serve port).router.matching method path = [] ∧
    (Serve port).router.Match method path = none ∧
    (∀ hdl : Handler, (Serve port).router.ServeHTTP method path ≠ Served.api hdl) ∧
    (cleanPath path = path → (Serve port).router.ServeHTTP method path = Served.notFound) ∧
    (cleanPath path ≠ path →
      (Serve port).router.ServeHTTP method path = Served.redirect (cleanPath path)) := by
  have hnil : (Serve port).router.matching method path = [] := by
    apply Router.matching_eq_nil_of_map _ _ _ _ (Serve_Match_covers port method path)
    intro b hb
    obtain ⟨row, hrow, rfl⟩ := List.mem_map.mp hb
    exact h row hrow
  have hmatch : (Serve port).router.Match method path = none := by
    rw [Router.Match_eq_matching_head, hnil]
    rfl
  have hclean : cleanPath path = path →
      (Serve port).router.ServeHTTP method path = Served.notFound := by
    intro hc
    unfold Router.ServeHTTP
    rw [if_neg (not_not.mpr hc), hmatch]
  have hredirect : cleanPath path ≠ path →
      (Serve port).router.ServeHTTP method path = Served.redirect (cleanPath path) := by
    intro hc
    unfold Router.ServeHTTP
    rw [if_pos hc]
  refine ⟨hnil, hmatch, ?_, hclean, hredirect⟩
  intro hdl
  by_cases hc : cleanPath path = path
  · rw [hclean hc]
    exact fun hcontra => Served.noConfusion hcontra
  · rw [hredirect hc]
    exact fun hcontra => Served.noConfusion hcontra

theorem Serve_unmatched_not_found_witness :
    ((∀ row ∈ registeredTable, row.covers "GET" "/v1/functions/a/b" = false) ∧
      cleanPath "/v1/functions/a/b" = "/v1/functions/a/b" ∧
      (Serve 8888).router.ServeHTTP "GET" "/v1/functions/a/b" = Served.notFound) ∧
    ((∀ row ∈ registeredTable, row.covers "GET" "//v1/functions" = false) ∧
      cleanPath "//v1/functions" ≠ "//v1/functions" ∧
      (Serve 8888).router.ServeHTTP "GET" "//v1/functions"
        = Served.redirect (cleanPath "//v1/functions")) :=
  ⟨⟨by decide, by decide,
    (Serve_unmatched_not_found 8888 "GET" "/v1/functions/a/b" (by decide)).2.2.2.1 (by decide)⟩,
   ⟨by decide, by decide,
    (Serve_unmatched_not_found 8888 "GET" "//v1/functions" (by decide)).2.2.2.2 (by decide)⟩⟩

end Fission
